import Mathlib

/-!
Shallow embedding of the KineticTheorySim repository (src/particula.py and
src/simulacion.py): a 2-D ideal-gas simulation with elastic wall and
pairwise particle collisions.  Machine floats are modelled by exact real
numbers, exactly as the claims under scrutiny ask (they speak of exact real
arithmetic, ignoring floating-point rounding).  The random number generator
used by the initialization routine is modelled as an explicit stream of
samples passed to the placement loop.
-/

noncomputable section

open Classical

/-- A 2-component real vector, standing for the numpy arrays of length 2
used throughout the source for positions, velocities and forces. -/
structure Vec2 where
  x : ℝ
  y : ℝ

instance : Add Vec2 := ⟨fun a b => ⟨a.x + b.x, a.y + b.y⟩⟩

instance : Sub Vec2 := ⟨fun a b => ⟨a.x - b.x, a.y - b.y⟩⟩

instance : SMul ℝ Vec2 := ⟨fun c v => ⟨c * v.x, c * v.y⟩⟩

instance : HDiv Vec2 ℝ Vec2 := ⟨fun v c => ⟨v.x / c, v.y / c⟩⟩

/-- np.dot of two 2-vectors. -/
def Vec2.dot (a b : Vec2) : ℝ := a.x * b.x + a.y * b.y

/-- np.linalg.norm of a 2-vector. -/
def norma (v : Vec2) : ℝ := Real.sqrt (v.x * v.x + v.y * v.y)

/-- particula.py, class Particula: id, masa, radio, posicion, velocidad,
fuerza, and the two append-only history lists kept by the source. -/
structure Particula where
  id : ℤ
  masa : ℝ
  radio : ℝ
  posicion : Vec2
  velocidad : Vec2
  fuerza : Vec2
  historial_posiciones : List Vec2
  historial_velocidades : List Vec2

/-- particula.py, Particula.__init__ (lines 18-28): stores the fields, zero
net force, and seeds both histories with the initial state. -/
def Particula.init (id : ℤ) (masa radio : ℝ) (posicion velocidad : Vec2) :
    Particula :=
  ⟨id, masa, radio, posicion, velocidad, ⟨0, 0⟩, [posicion], [velocidad]⟩

/-- particula.py, Particula.mover (lines 30-42):
posicion += velocidad * dt, then append the new position to the history. -/
def Particula.mover (p : Particula) (dt : ℝ) : Particula :=
  let pos := p.posicion + dt • p.velocidad
  { p with posicion := pos,
           historial_posiciones := p.historial_posiciones ++ [pos] }

/-- particula.py, Particula.colisionar_pared, left-wall block (lines 56-59):
if posicion[0] - radio <= 0, the x velocity becomes its absolute value and
the x position is clamped to radio. -/
def reflejar_izquierda (p : Particula) : Particula :=
  if p.posicion.x - p.radio ≤ 0 then
    { p with velocidad := ⟨|p.velocidad.x|, p.velocidad.y⟩,
             posicion := ⟨p.radio, p.posicion.y⟩ }
  else p

/-- particula.py, Particula.colisionar_pared, right-wall block (lines 61-64):
if posicion[0] + radio >= ancho, the x velocity becomes minus its absolute
value and the x position is clamped to ancho - radio. -/
def reflejar_derecha (p : Particula) (ancho : ℝ) : Particula :=
  if p.posicion.x + p.radio ≥ ancho then
    { p with velocidad := ⟨-|p.velocidad.x|, p.velocidad.y⟩,
             posicion := ⟨ancho - p.radio, p.posicion.y⟩ }
  else p

/-- particula.py, Particula.colisionar_pared, bottom-wall block
(lines 66-69), acting on the y axis like the left-wall block. -/
def reflejar_abajo (p : Particula) : Particula :=
  if p.posicion.y - p.radio ≤ 0 then
    { p with velocidad := ⟨p.velocidad.x, |p.velocidad.y|⟩,
             posicion := ⟨p.posicion.x, p.radio⟩ }
  else p

/-- particula.py, Particula.colisionar_pared, top-wall block (lines 71-74),
acting on the y axis like the right-wall block. -/
def reflejar_arriba (p : Particula) (alto : ℝ) : Particula :=
  if p.posicion.y + p.radio ≥ alto then
    { p with velocidad := ⟨p.velocidad.x, -|p.velocidad.y|⟩,
             posicion := ⟨p.posicion.x, alto - p.radio⟩ }
  else p

/-- particula.py, Particula.colisionar_pared (lines 48-76): the four wall
blocks run in source order (left, right, bottom, top), then the resulting
velocity is appended to the velocity history. -/
def Particula.colisionar_pared (p : Particula) (ancho alto : ℝ) : Particula :=
  let p4 := reflejar_arriba (reflejar_abajo (reflejar_derecha
      (reflejar_izquierda p) ancho)) alto
  { p4 with historial_velocidades := p4.historial_velocidades ++ [p4.velocidad] }

/-- particula.py, Particula.energia_cinetica (lines 78-86):
0.5 * masa * np.dot(velocidad, velocidad). -/
def Particula.energia_cinetica (p : Particula) : ℝ :=
  0.5 * p.masa * (p.velocidad.dot p.velocidad)

/-- particula.py, Particula.momento_lineal (lines 88-95): masa * velocidad. -/
def Particula.momento_lineal (p : Particula) : Vec2 :=
  p.masa • p.velocidad

/-- particula.py, Particula.distancia_a (lines 111-113):
np.linalg.norm(posicion - otra.posicion). -/
def Particula.distancia_a (p otra : Particula) : ℝ :=
  norma (p.posicion - otra.posicion)

/-- particula.py, Particula.colisiona_con (lines 115-122):
distancia <= radio + radio de la otra. -/
def Particula.colisiona_con (p otra : Particula) : Prop :=
  p.distancia_a otra ≤ p.radio + otra.radio

/-- simulacion.py, class Simulacion: box size, particle count, time step,
particle list, current time, the per-particle physical constants fixed by
the constructor, and the three aggregate history lists.  The source field
written with an enye is transliterated to tamano_caja. -/
structure Simulacion where
  tamano_caja : ℝ
  n_particulas : ℤ
  dt : ℝ
  particulas : List Particula
  tiempo_actual : ℝ
  masa_particula : ℝ
  radio_particula : ℝ
  historial_energia : List ℝ
  historial_temperatura : List ℝ
  historial_presion : List ℝ

/-- simulacion.py, Simulacion.__init__ (lines 17-31): stores the three
parameters verbatim with no validation of any kind, an empty particle list,
time zero, the fixed molecular mass 4.65e-26 and radius 1e-10, and empty
histories.  The source default for dt is 1e-12; here dt is always passed
explicitly. -/
def Simulacion.init (tamano_caja : ℝ) (n_particulas : ℤ) (dt : ℝ) :
    Simulacion :=
  ⟨tamano_caja, n_particulas, dt, [], 0, 4.65e-26, 1e-10, [], [], []⟩

/-- simulacion.py, Simulacion._posicion_valida (lines 66-74): a candidate
position is valid when it keeps distance at least 2 * radio_particula from
every already-placed particle.  In crear_gas the enumerate break at
i >= id_actual never fires because exactly id_actual particles exist when
particle id_actual is being placed, so the check runs over the whole list
of previously created particles. -/
def posicion_valida (previas : List Particula) (radio_particula : ℝ)
    (posicion : Vec2) : Prop :=
  ∀ p ∈ previas, ¬ (norma (posicion - p.posicion) < 2 * radio_particula)

/-- simulacion.py, Simulacion.crear_gas, placement loop (lines 46-52):
the while-not-valid rejection loop, with np.random.uniform modelled as an
explicit stream of samples (muestras) consumed at increasing indices.  The
source loop has no attempt counter and no failure exit, so the embedding is
fuel-indexed: fuel many attempts are made starting at stream index k, and
none is returned when the fuel runs out before a valid sample appears.  The
source behavior is the limit of unbounded fuel. -/
def buscar_posicion (previas : List Particula) (radio_particula : ℝ)
    (muestras : ℕ → Vec2) : ℕ → ℕ → Option Vec2
  | _, 0 => none
  | k, fuel + 1 =>
    if posicion_valida previas radio_particula (muestras k) then
      some (muestras k)
    else
      buscar_posicion previas radio_particula muestras (k + 1) fuel

/-- simulacion.py, Simulacion._resolver_colision (lines 109-152): elastic
two-body resolution.  Degenerate zero distance returns the pair untouched;
otherwise the normal velocity components are exchanged by the 1-D elastic
formulas and, when the disks overlap, each center is pushed half the
overlap along the unit normal. -/
def resolver_colision (p1 p2 : Particula) : Particula × Particula :=
  let r12 := p2.posicion - p1.posicion
  let distancia := norma r12
  if distancia = 0 then (p1, p2)
  else
    let n := r12 / distancia
    let v1 := p1.velocidad
    let v2 := p2.velocidad
    let v1n := v1.dot n
    let v2n := v2.dot n
    let m1 := p1.masa
    let m2 := p2.masa
    let masa_total := m1 + m2
    let v1n_nueva := (v1n * (m1 - m2) + 2 * m2 * v2n) / masa_total
    let v2n_nueva := (v2n * (m2 - m1) + 2 * m1 * v1n) / masa_total
    let q1 := { p1 with velocidad := v1 + (v1n_nueva - v1n) • n }
    let q2 := { p2 with velocidad := v2 + (v2n_nueva - v2n) • n }
    let superposicion := (p1.radio + p2.radio) - distancia
    if 0 < superposicion then
      let correccion := superposicion * 0.5
      ({ q1 with posicion := q1.posicion - correccion • n },
       { q2 with posicion := q2.posicion + correccion • n })
    else (q1, q2)

/-- The unordered index pairs (i, j) with i < j < n, in the lexicographic
order of the two nested loops of detectar_colisiones (lines 101-102). -/
def pares (n : ℕ) : List (ℕ × ℕ) :=
  (List.range n).flatMap fun i =>
    ((List.range n).filter fun j => i < j).map fun j => (i, j)

/-- The body of the pair loop of Simulacion.detectar_colisiones
(lines 103-107): read particles i and j from the current list and, when
they collide, write back the resolved pair. -/
def resolver_en (ps : List Particula) (i j : ℕ) : List Particula :=
  match ps[i]?, ps[j]? with
  | some p1, some p2 =>
    if p1.colisiona_con p2 then
      let q := resolver_colision p1 p2
      (ps.set i q.1).set j q.2
    else ps
  | _, _ => ps

/-- simulacion.py, Simulacion.detectar_colisiones (lines 99-107): fold the
pair-resolution body over all index pairs in loop order, each resolution
seeing the most recently updated particle states. -/
def detectar_colisiones (ps : List Particula) : List Particula :=
  (pares ps.length).foldl (fun acc ij => resolver_en acc ij.1 ij.2) ps

/-- simulacion.py, Simulacion.aplicar_condiciones_frontera (lines 94-97):
reflect every particle off the walls of the square box. -/
def Simulacion.aplicar_condiciones_frontera (s : Simulacion) : Simulacion :=
  { s with particulas :=
      s.particulas.map fun p => p.colisionar_pared s.tamano_caja s.tamano_caja }

/-- simulacion.py, free function energia_total (lines 267-269) and the
method Simulacion.energia_total (lines 154-164), whose body is the same
sum of kinetic energies accumulated from zero. -/
def energia_total (particulas : List Particula) : ℝ :=
  particulas.foldl (fun acc p => acc + p.energia_cinetica) 0

/-- The source default Boltzmann constant, 1.38e-23, written at
simulacion.py lines 166, 197 and 271 and particula.py line 97. -/
def k_B_default : ℝ := 1.38e-23

/-- simulacion.py, free function temperatura (lines 271-281) and the method
Simulacion.temperatura (lines 166-184), whose body is the same loop: an
empty list returns 0.0, otherwise sum masa * dot(velocidad, velocidad) and
divide by (2 * len * k_B). -/
def temperatura (particulas : List Particula) (k_B : ℝ) : ℝ :=
  if particulas = [] then 0
  else
    let suma_v_cuad :=
      particulas.foldl (fun acc p => acc + p.masa * (p.velocidad.dot p.velocidad)) 0
    suma_v_cuad / (2 * particulas.length * k_B)

/-- simulacion.py, Simulacion.calcular_presion (lines 190-201):
(n_particulas * k_B * temperatura) / tamano_caja ** 2, where the method
Simulacion.temperatura called there runs the same loop as the free
temperatura on the own particle list with the default constant. -/
def Simulacion.calcular_presion (s : Simulacion) : ℝ :=
  ((s.n_particulas : ℝ) * k_B_default * temperatura s.particulas k_B_default) /
    s.tamano_caja ^ 2

/-- simulacion.py, one iteration of the loop body of Simulacion.avanzar
(lines 207-224): boundary conditions, then pairwise collision resolution,
then free flight of every particle by dt, then the time increment and the
three history appends. -/
def Simulacion.avanzarUno (s : Simulacion) : Simulacion :=
  let s1 := s.aplicar_condiciones_frontera
  let s2 := { s1 with particulas := detectar_colisiones s1.particulas }
  let s3 := { s2 with
    particulas := s2.particulas.map fun p : Particula => p.mover s.dt }
  let s4 := { s3 with tiempo_actual := s3.tiempo_actual + s.dt }
  { s4 with
    historial_energia := s4.historial_energia ++ [energia_total s4.particulas],
    historial_temperatura :=
      s4.historial_temperatura ++ [temperatura s4.particulas k_B_default],
    historial_presion := s4.historial_presion ++ [s4.calcular_presion] }

/-- simulacion.py, Simulacion.avanzar (lines 203-224): run the loop body
pasos times. -/
def Simulacion.avanzar (s : Simulacion) : ℕ → Simulacion
  | 0 => s
  | pasos + 1 => Simulacion.avanzar s.avanzarUno pasos

/-- simulacion.py, free function paso (lines 253-265): move every particle
by dt and reflect it off the walls, in that order, with no pairwise
collision handling. -/
def paso (particulas : List Particula) (dt ancho alto : ℝ) : List Particula :=
  particulas.map fun p => (p.mover dt).colisionar_pared ancho alto

/-- Concrete particle near the right wall of a 10 x 10 box: position
(9.5, 5), velocity (1, 0), unit mass, unit radius. -/
def pCercaPared : Particula := Particula.init 0 1 1 ⟨9.5, 5⟩ ⟨1, 0⟩

/-- Singleton ensemble holding pCercaPared in a 10 x 10 box with dt 1. -/
def sCercaPared : Simulacion :=
  { Simulacion.init 10 1 1 with particulas := [pCercaPared] }

/-- Concrete fast particle at the center of a 10 x 10 box: position
(5, 5), velocity (100, 0), unit mass, unit radius. -/
def pRapida : Particula := Particula.init 0 1 1 ⟨5, 5⟩ ⟨100, 0⟩

/-- Singleton ensemble holding pRapida in a 10 x 10 box with dt 1. -/
def sRapida : Simulacion :=
  { Simulacion.init 10 1 1 with particulas := [pRapida] }

/-- Concrete interior particle: position (5, 5), velocity (1, 0), unit
mass, unit radius; it stays strictly inside the 10 x 10 box across one
step of length 1. -/
def pInterior : Particula := Particula.init 0 1 1 ⟨5, 5⟩ ⟨1, 0⟩

/-- Singleton ensemble holding pInterior in a 10 x 10 box with dt 1. -/
def sInterior : Simulacion :=
  { Simulacion.init 10 1 1 with particulas := [pInterior] }

/-- Concrete particle fixed at the origin, used as the already-placed
particle blocking the placement loop. -/
def pOrigen : Particula := Particula.init 0 1 1 ⟨0, 0⟩ ⟨0, 0⟩

/-- Concrete unit-mass particle with speed 1 along x, for evaluating the
temperature formula. -/
def pTermica : Particula := Particula.init 0 1 1 ⟨0, 0⟩ ⟨1, 0⟩

/-- Concrete colliding pair, first member: center (0, 0), velocity (1, 0),
unit mass and radius. -/
def pChoque1 : Particula := Particula.init 0 1 1 ⟨0, 0⟩ ⟨1, 0⟩

/-- Concrete colliding pair, second member: center (1, 0), velocity (0, 0),
unit mass and radius; it overlaps pChoque1 since their distance is 1 and
the radii sum to 2. -/
def pChoque2 : Particula := Particula.init 1 1 1 ⟨1, 0⟩ ⟨0, 0⟩

/-- Concrete particle far outside the 10 x 10 box: position (100, -50),
velocity (3, 4), unit mass, unit radius. -/
def pLejana : Particula := Particula.init 0 1 1 ⟨100, -50⟩ ⟨3, 4⟩

/-- The unit normal n = r12 / distancia of _resolver_colision (line 125),
as a function of the two particles. -/
def nvec (p1 p2 : Particula) : Vec2 :=
  (p2.posicion - p1.posicion) / norma (p2.posicion - p1.posicion)

/-- The normal velocity component v1n of _resolver_colision (line 132). -/
def v1n (p1 p2 : Particula) : ℝ := p1.velocidad.dot (nvec p1 p2)

/-- The normal velocity component v2n of _resolver_colision (line 133). -/
def v2n (p1 p2 : Particula) : ℝ := p2.velocidad.dot (nvec p1 p2)

/-- The post-collision normal component v1n_nueva of _resolver_colision
(line 140). -/
def v1n_nueva (p1 p2 : Particula) : ℝ :=
  (v1n p1 p2 * (p1.masa - p2.masa) + 2 * p2.masa * v2n p1 p2) /
    (p1.masa + p2.masa)

/-- The post-collision normal component v2n_nueva of _resolver_colision
(line 141). -/
def v2n_nueva (p1 p2 : Particula) : ℝ :=
  (v2n p1 p2 * (p2.masa - p1.masa) + 2 * p1.masa * v1n p1 p2) /
    (p1.masa + p2.masa)

/-- The scalar velocity increment v1n_nueva - v1n applied along the normal
to particle 1 (line 144). -/
def dv1 (p1 p2 : Particula) : ℝ := v1n_nueva p1 p2 - v1n p1 p2

/-- The scalar velocity increment v2n_nueva - v2n applied along the normal
to particle 2 (line 145). -/
def dv2 (p1 p2 : Particula) : ℝ := v2n_nueva p1 p2 - v2n p1 p2

@[simp] theorem Vec2.add_x (a b : Vec2) : (a + b).x = a.x + b.x := rfl

@[simp] theorem Vec2.add_y (a b : Vec2) : (a + b).y = a.y + b.y := rfl

@[simp] theorem Vec2.sub_x (a b : Vec2) : (a - b).x = a.x - b.x := rfl

@[simp] theorem Vec2.sub_y (a b : Vec2) : (a - b).y = a.y - b.y := rfl

@[simp] theorem Vec2.smul_x (c : ℝ) (v : Vec2) : (c • v).x = c * v.x := rfl

@[simp] theorem Vec2.smul_y (c : ℝ) (v : Vec2) : (c • v).y = c * v.y := rfl

@[simp] theorem Vec2.div_x (v : Vec2) (c : ℝ) : (v / c).x = v.x / c := rfl

@[simp] theorem Vec2.div_y (v : Vec2) (c : ℝ) : (v / c).y = v.y / c := rfl

theorem Vec2.eq_of_xy {a b : Vec2} (hx : a.x = b.x) (hy : a.y = b.y) :
    a = b := by
  cases a
  cases b
  simp_all

theorem dot_self_nonneg (v : Vec2) : 0 ≤ v.x * v.x + v.y * v.y :=
  add_nonneg (mul_self_nonneg _) (mul_self_nonneg _)

theorem norma_mul_self (v : Vec2) : norma v * norma v = v.x * v.x + v.y * v.y :=
  Real.mul_self_sqrt (dot_self_nonneg v)

theorem norma_nonneg (v : Vec2) : 0 ≤ norma v := Real.sqrt_nonneg _

theorem norma_cero : norma ⟨0, 0⟩ = 0 := by
  simp [norma]

theorem reflejar_izquierda_spec (p : Particula) :
    (reflejar_izquierda p).masa = p.masa ∧
    (reflejar_izquierda p).radio = p.radio ∧
    (reflejar_izquierda p).posicion.y = p.posicion.y ∧
    (reflejar_izquierda p).velocidad.y = p.velocidad.y ∧
    |(reflejar_izquierda p).velocidad.x| = |p.velocidad.x| := by
  unfold reflejar_izquierda
  split_ifs <;> simp [abs_abs]

theorem reflejar_derecha_spec (p : Particula) (ancho : ℝ) :
    (reflejar_derecha p ancho).masa = p.masa ∧
    (reflejar_derecha p ancho).radio = p.radio ∧
    (reflejar_derecha p ancho).posicion.y = p.posicion.y ∧
    (reflejar_derecha p ancho).velocidad.y = p.velocidad.y ∧
    |(reflejar_derecha p ancho).velocidad.x| = |p.velocidad.x| := by
  unfold reflejar_derecha
  split_ifs <;> simp [abs_abs]

theorem reflejar_abajo_spec (p : Particula) :
    (reflejar_abajo p).masa = p.masa ∧
    (reflejar_abajo p).radio = p.radio ∧
    (reflejar_abajo p).posicion.x = p.posicion.x ∧
    (reflejar_abajo p).velocidad.x = p.velocidad.x ∧
    |(reflejar_abajo p).velocidad.y| = |p.velocidad.y| := by
  unfold reflejar_abajo
  split_ifs <;> simp [abs_abs]

theorem reflejar_arriba_spec (p : Particula) (alto : ℝ) :
    (reflejar_arriba p alto).masa = p.masa ∧
    (reflejar_arriba p alto).radio = p.radio ∧
    (reflejar_arriba p alto).posicion.x = p.posicion.x ∧
    (reflejar_arriba p alto).velocidad.x = p.velocidad.x ∧
    |(reflejar_arriba p alto).velocidad.y| = |p.velocidad.y| := by
  unfold reflejar_arriba
  split_ifs <;> simp [abs_abs]

theorem reflejar_x_bounds (p : Particula) (ancho : ℝ)
    (h : 2 * p.radio ≤ ancho) :
    p.radio ≤ (reflejar_derecha (reflejar_izquierda p) ancho).posicion.x ∧
    (reflejar_derecha (reflejar_izquierda p) ancho).posicion.x
      ≤ ancho - p.radio := by
  unfold reflejar_derecha reflejar_izquierda
  split_ifs <;> simp_all <;> first
  | constructor <;> linarith
  | linarith

theorem reflejar_y_bounds (p : Particula) (alto : ℝ)
    (h : 2 * p.radio ≤ alto) :
    p.radio ≤ (reflejar_arriba (reflejar_abajo p) alto).posicion.y ∧
    (reflejar_arriba (reflejar_abajo p) alto).posicion.y
      ≤ alto - p.radio := by
  unfold reflejar_arriba reflejar_abajo
  split_ifs <;> simp_all <;> first
  | constructor <;> linarith
  | linarith

theorem colisionar_pared_masa_radio (p : Particula) (ancho alto : ℝ) :
    (p.colisionar_pared ancho alto).masa = p.masa ∧
    (p.colisionar_pared ancho alto).radio = p.radio := by
  unfold Particula.colisionar_pared
  obtain ⟨h1m, h1r, -, -, -⟩ := reflejar_izquierda_spec p
  obtain ⟨h2m, h2r, -, -, -⟩ := reflejar_derecha_spec (reflejar_izquierda p) ancho
  obtain ⟨h3m, h3r, -, -, -⟩ :=
    reflejar_abajo_spec (reflejar_derecha (reflejar_izquierda p) ancho)
  obtain ⟨h4m, h4r, -, -, -⟩ := reflejar_arriba_spec
    (reflejar_abajo (reflejar_derecha (reflejar_izquierda p) ancho)) alto
  constructor
  · simpa [h4m, h3m, h2m] using h1m
  · simpa [h4r, h3r, h2r] using h1r

theorem colisionar_pared_abs_velocidad (p : Particula) (ancho alto : ℝ) :
    |(p.colisionar_pared ancho alto).velocidad.x| = |p.velocidad.x| ∧
    |(p.colisionar_pared ancho alto).velocidad.y| = |p.velocidad.y| := by
  unfold Particula.colisionar_pared
  obtain ⟨-, -, -, h1y, h1x⟩ := reflejar_izquierda_spec p
  obtain ⟨-, -, -, h2y, h2x⟩ := reflejar_derecha_spec (reflejar_izquierda p) ancho
  obtain ⟨-, -, -, h3x, h3y⟩ :=
    reflejar_abajo_spec (reflejar_derecha (reflejar_izquierda p) ancho)
  obtain ⟨-, -, -, h4x, h4y⟩ := reflejar_arriba_spec
    (reflejar_abajo (reflejar_derecha (reflejar_izquierda p) ancho)) alto
  constructor
  · simp only [h4x, h3x]
    simpa [h2y, h1y, h2x] using h1x
  · simp only [h4y, h3y]
    simp [h2y, h1y]

theorem colisionar_pared_bounds (p : Particula) (ancho alto : ℝ)
    (hx : 2 * p.radio ≤ ancho) (hy : 2 * p.radio ≤ alto) :
    p.radio ≤ (p.colisionar_pared ancho alto).posicion.x ∧
    (p.colisionar_pared ancho alto).posicion.x ≤ ancho - p.radio ∧
    p.radio ≤ (p.colisionar_pared ancho alto).posicion.y ∧
    (p.colisionar_pared ancho alto).posicion.y ≤ alto - p.radio := by
  unfold Particula.colisionar_pared
  obtain ⟨-, h1r, -, -, -⟩ := reflejar_izquierda_spec p
  obtain ⟨-, h2r, -, -, -⟩ := reflejar_derecha_spec (reflejar_izquierda p) ancho
  obtain ⟨-, -, h3x, -, -⟩ :=
    reflejar_abajo_spec (reflejar_derecha (reflejar_izquierda p) ancho)
  obtain ⟨-, -, h4x, -, -⟩ := reflejar_arriba_spec
    (reflejar_abajo (reflejar_derecha (reflejar_izquierda p) ancho)) alto
  obtain ⟨hxl, hxr⟩ := reflejar_x_bounds p ancho hx
  have hrq : 2 * (reflejar_derecha (reflejar_izquierda p) ancho).radio ≤ alto := by
    rw [h2r, h1r]
    exact hy
  obtain ⟨hyl, hyr⟩ :=
    reflejar_y_bounds (reflejar_derecha (reflejar_izquierda p) ancho) alto hrq
  rw [h2r, h1r] at hyl hyr
  simp only [h4x, h3x]
  exact ⟨hxl, hxr, hyl, hyr⟩

/-- C9: for every particle and all box dimensions, colisionar_pared leaves
the kinetic energy exactly unchanged, each velocity component keeping its
magnitude. -/
theorem C9_pared_elastica (p : Particula) (ancho alto : ℝ) :
    (p.colisionar_pared ancho alto).energia_cinetica = p.energia_cinetica ∧
    |(p.colisionar_pared ancho alto).velocidad.x| = |p.velocidad.x| ∧
    |(p.colisionar_pared ancho alto).velocidad.y| = |p.velocidad.y| := by
  obtain ⟨hm, -⟩ := colisionar_pared_masa_radio p ancho alto
  obtain ⟨hx, hy⟩ := colisionar_pared_abs_velocidad p ancho alto
  refine ⟨?_, hx, hy⟩
  have hx2 : (p.colisionar_pared ancho alto).velocidad.x *
      (p.colisionar_pared ancho alto).velocidad.x
      = p.velocidad.x * p.velocidad.x := by
    rw [← abs_mul_abs_self, hx, abs_mul_abs_self]
  have hy2 : (p.colisionar_pared ancho alto).velocidad.y *
      (p.colisionar_pared ancho alto).velocidad.y
      = p.velocidad.y * p.velocidad.y := by
    rw [← abs_mul_abs_self, hy, abs_mul_abs_self]
  simp [Particula.energia_cinetica, Vec2.dot, hm, hx2, hy2]

/-- C10: for every particle and box dimensions each strictly larger than
twice the radius, a single colisionar_pared call lands the position inside
[radio, ancho - radio] x [radio, alto - radio], however far outside the
particle started. -/
theorem C10_pared_acota (p : Particula) (ancho alto : ℝ)
    (hx : 2 * p.radio < ancho) (hy : 2 * p.radio < alto) :
    p.radio ≤ (p.colisionar_pared ancho alto).posicion.x ∧
    (p.colisionar_pared ancho alto).posicion.x ≤ ancho - p.radio ∧
    p.radio ≤ (p.colisionar_pared ancho alto).posicion.y ∧
    (p.colisionar_pared ancho alto).posicion.y ≤ alto - p.radio :=
  colisionar_pared_bounds p ancho alto hx.le hy.le

theorem mover_posicion (p : Particula) (dt : ℝ) :
    (p.mover dt).posicion = p.posicion + dt • p.velocidad := rfl

theorem mover_velocidad (p : Particula) (dt : ℝ) :
    (p.mover dt).velocidad = p.velocidad := rfl

theorem mover_radio (p : Particula) (dt : ℝ) :
    (p.mover dt).radio = p.radio := rfl

theorem mover_masa (p : Particula) (dt : ℝ) :
    (p.mover dt).masa = p.masa := rfl

theorem colisionar_pared_interior (p : Particula) (ancho alto : ℝ)
    (h1 : 0 < p.posicion.x - p.radio) (h2 : p.posicion.x + p.radio < ancho)
    (h3 : 0 < p.posicion.y - p.radio) (h4 : p.posicion.y + p.radio < alto) :
    (p.colisionar_pared ancho alto).posicion = p.posicion ∧
    (p.colisionar_pared ancho alto).velocidad = p.velocidad := by
  have e1 : reflejar_izquierda p = p := by
    unfold reflejar_izquierda
    exact if_neg (not_le.mpr h1)
  have e2 : reflejar_derecha p ancho = p := by
    unfold reflejar_derecha
    exact if_neg (not_le.mpr h2)
  have e3 : reflejar_abajo p = p := by
    unfold reflejar_abajo
    exact if_neg (not_le.mpr h3)
  have e4 : reflejar_arriba p alto = p := by
    unfold reflejar_arriba
    exact if_neg (not_le.mpr h4)
  unfold Particula.colisionar_pared
  rw [e1, e2, e3, e4]
  exact ⟨rfl, rfl⟩

theorem pares_uno : pares 1 = [] := rfl

theorem detectar_colisiones_singleton (q : Particula) :
    detectar_colisiones [q] = [q] := by
  simp [detectar_colisiones, pares_uno]

/-- C10 witness: the particle at (100, -50) is clamped into the 10 x 10
box by one call. -/
theorem C10_pared_acota_witness :
    (2 * pLejana.radio < 10 ∧ 2 * pLejana.radio < 10) ∧
    (pLejana.radio ≤ (pLejana.colisionar_pared 10 10).posicion.x ∧
     (pLejana.colisionar_pared 10 10).posicion.x ≤ 10 - pLejana.radio ∧
     pLejana.radio ≤ (pLejana.colisionar_pared 10 10).posicion.y ∧
     (pLejana.colisionar_pared 10 10).posicion.y ≤ 10 - pLejana.radio) :=
  ⟨⟨by norm_num [pLejana, Particula.init], by norm_num [pLejana, Particula.init]⟩,
   C10_pared_acota pLejana 10 10 (by norm_num [pLejana, Particula.init])
     (by norm_num [pLejana, Particula.init])⟩

theorem avanzarUno_particulas (s : Simulacion) :
    (s.avanzarUno).particulas
      = (detectar_colisiones (s.particulas.map
          fun p : Particula => p.colisionar_pared s.tamano_caja s.tamano_caja)).map
          fun p : Particula => p.mover s.dt := rfl

/-- C1 counterexample: starting from the single particle at (9.5, 5) with
velocity (1, 0) in the 10 x 10 box with dt = 1, one Simulacion.avanzar step
ends at x = 8 (reflect first, then move) while one free paso step ends at
x = 9 (move first, then reflect): the two entry points disagree. -/
theorem C1_counterexample :
    ((sCercaPared.avanzar 1).particulas.map fun q => q.posicion.x) = [8] ∧
    ((paso [pCercaPared] 1 10 10).map fun q => q.posicion.x) = [9] ∧
    ((sCercaPared.avanzar 1).particulas.map fun q => q.posicion.x)
      ≠ ((paso [pCercaPared] 1 10 10).map fun q => q.posicion.x) := by
  have hc : (pCercaPared.colisionar_pared 10 10).posicion.x = 9 ∧
      (pCercaPared.colisionar_pared 10 10).velocidad.x = -1 := by
    unfold Particula.colisionar_pared reflejar_izquierda reflejar_derecha
      reflejar_abajo reflejar_arriba
    norm_num [pCercaPared, Particula.init]
  have hA : ((sCercaPared.avanzar 1).particulas.map fun q => q.posicion.x)
      = [8] := by
    have hpart : (sCercaPared.avanzar 1).particulas
        = [(pCercaPared.colisionar_pared 10 10).mover 1] := by
      rw [show sCercaPared.avanzar 1 = sCercaPared.avanzarUno from rfl,
        avanzarUno_particulas]
      rw [show sCercaPared.particulas.map
            (fun p : Particula => p.colisionar_pared sCercaPared.tamano_caja
              sCercaPared.tamano_caja)
          = [pCercaPared.colisionar_pared 10 10] from rfl,
        detectar_colisiones_singleton]
      rfl
    rw [hpart]
    simp only [List.map_cons, List.map_nil, mover_posicion, Vec2.add_x,
      Vec2.smul_x, hc.1, hc.2, List.cons.injEq, and_true]
    norm_num
  have hB : ((paso [pCercaPared] 1 10 10).map fun q => q.posicion.x)
      = [9] := by
    have hm : ((pCercaPared.mover 1).colisionar_pared 10 10).posicion.x = 9 := by
      unfold Particula.colisionar_pared reflejar_izquierda reflejar_derecha
        reflejar_abajo reflejar_arriba
      norm_num [Particula.mover, pCercaPared, Particula.init]
    rw [paso]
    simp only [List.map_cons, List.map_nil, hm]
  refine ⟨hA, hB, ?_⟩
  rw [hA, hB]
  simp only [ne_eq, List.cons.injEq, and_true]
  norm_num

/-- C1 as amended: the two entry points agree only away from all
interactions; for a single particle that stays strictly inside the box
before and after the move, one avanzar step and one paso step produce the
same position and velocity.  In general they differ: avanzar reflects and
resolves collisions before moving, paso moves before reflecting and never
resolves pairwise collisions. -/
theorem C1_amended (s : Simulacion) (p : Particula)
    (hs : s.particulas = [p])
    (ha : 0 < p.posicion.x - p.radio)
    (hb : p.posicion.x + p.radio < s.tamano_caja)
    (hc : 0 < p.posicion.y - p.radio)
    (hd : p.posicion.y + p.radio < s.tamano_caja)
    (ha' : 0 < (p.posicion + s.dt • p.velocidad).x - p.radio)
    (hb' : (p.posicion + s.dt • p.velocidad).x + p.radio < s.tamano_caja)
    (hc' : 0 < (p.posicion + s.dt • p.velocidad).y - p.radio)
    (hd' : (p.posicion + s.dt • p.velocidad).y + p.radio < s.tamano_caja) :
    ((s.avanzar 1).particulas.map fun q => (q.posicion, q.velocidad))
      = (paso [p] s.dt s.tamano_caja s.tamano_caja).map
          fun q => (q.posicion, q.velocidad) := by
  have h1 := colisionar_pared_interior p s.tamano_caja s.tamano_caja ha hb hc hd
  have h2 := colisionar_pared_interior (p.mover s.dt) s.tamano_caja s.tamano_caja
    (by rw [mover_posicion, mover_radio]; exact ha')
    (by rw [mover_posicion, mover_radio]; exact hb')
    (by rw [mover_posicion, mover_radio]; exact hc')
    (by rw [mover_posicion, mover_radio]; exact hd')
  have hL : (s.avanzar 1).particulas
      = [(p.colisionar_pared s.tamano_caja s.tamano_caja).mover s.dt] := by
    rw [show s.avanzar 1 = s.avanzarUno from rfl, avanzarUno_particulas, hs]
    simp only [List.map_cons, List.map_nil]
    rw [detectar_colisiones_singleton]
    rfl
  rw [hL, paso]
  simp only [List.map_cons, List.map_nil, mover_posicion, mover_velocidad,
    h1.1, h1.2, h2.1, h2.2]

/-- C1 witness: the interior particle at (5, 5) with velocity (1, 0) in the
10 x 10 box with dt = 1 is carried to the same state by both entry
points. -/
theorem C1_amended_witness :
    sInterior.particulas = [pInterior] ∧
    ((sInterior.avanzar 1).particulas.map fun q => (q.posicion, q.velocidad))
      = (paso [pInterior] sInterior.dt sInterior.tamano_caja
          sInterior.tamano_caja).map fun q => (q.posicion, q.velocidad) :=
  ⟨rfl,
   C1_amended sInterior pInterior rfl
     (by norm_num [pInterior, Particula.init])
     (by norm_num [pInterior, Particula.init, sInterior, Simulacion.init])
     (by norm_num [pInterior, Particula.init])
     (by norm_num [pInterior, Particula.init, sInterior, Simulacion.init])
     (by norm_num [pInterior, Particula.init, sInterior, Simulacion.init])
     (by norm_num [pInterior, Particula.init, sInterior, Simulacion.init])
     (by norm_num [pInterior, Particula.init, sInterior, Simulacion.init])
     (by norm_num [pInterior, Particula.init, sInterior, Simulacion.init])⟩

/-- C4 counterexample: constructing a Simulacion with box size -1, particle
count -2 and dt -1 succeeds and stores exactly those values; no domain
error interrupts construction. -/
theorem C4_counterexample :
    (Simulacion.init (-1) (-2) (-1)).tamano_caja = -1 ∧
    (Simulacion.init (-1) (-2) (-1)).n_particulas = -2 ∧
    (Simulacion.init (-1) (-2) (-1)).dt = -1 :=
  ⟨rfl, rfl, rfl⟩

/-- C4 as amended: the constructor performs no validation whatsoever and
always produces an object carrying the given box size, particle count and
dt verbatim, together with an empty particle list. -/
theorem C4_sin_validacion (t : ℝ) (n : ℤ) (d : ℝ) :
    (Simulacion.init t n d).tamano_caja = t ∧
    (Simulacion.init t n d).n_particulas = n ∧
    (Simulacion.init t n d).dt = d ∧
    (Simulacion.init t n d).particulas = [] :=
  ⟨rfl, rfl, rfl, rfl⟩

theorem foldl_add_sum (f : Particula → ℝ) (ps : List Particula) (a : ℝ) :
    ps.foldl (fun acc p => acc + f p) a = a + (ps.map f).sum := by
  induction ps generalizing a with
  | nil => simp
  | cons p resto ih => simp [ih, add_assoc]

/-- C6 counterexample: the default Boltzmann constant of the source is
1.38e-23, not the claimed 1.380649e-23, and so the temperature of a unit
mass particle with unit speed differs from the value the claim asserts. -/
theorem C6_counterexample :
    k_B_default = 1.38e-23 ∧
    ¬ (k_B_default = 1.380649e-23) ∧
    temperatura [pTermica] k_B_default
      ≠ (pTermica.masa * (pTermica.velocidad.dot pTermica.velocidad))
          / (2 * 1 * 1.380649e-23) := by
  refine ⟨rfl, by norm_num [k_B_default], ?_⟩
  rw [temperatura, if_neg (by simp)]
  simp only [List.foldl_cons, List.foldl_nil, List.length_cons,
    List.length_nil]
  norm_num [pTermica, Particula.init, Vec2.dot, k_B_default]

/-- C6 as amended: for a nonempty list, temperatura returns the sum of
masa times squared speed over 2 N k_B, with the source default
k_B = 1.38e-23; the empty list returns exactly 0. -/
theorem C6_temperatura_formula (ps : List Particula) (k_B : ℝ) :
    temperatura [] k_B = 0 ∧
    (ps ≠ [] → temperatura ps k_B
      = (ps.map fun p => p.masa * (p.velocidad.dot p.velocidad)).sum
          / (2 * ps.length * k_B)) := by
  constructor
  · simp [temperatura]
  · intro h
    rw [temperatura, if_neg h]
    rw [foldl_add_sum (fun p => p.masa * (p.velocidad.dot p.velocidad)) ps 0,
      zero_add]

/-- C6 witness: the formula instantiated on the unit particle. -/
theorem C6_temperatura_formula_witness :
    ([pTermica] ≠ ([] : List Particula)) ∧
    temperatura [pTermica] k_B_default
      = (([pTermica].map fun p => p.masa * (p.velocidad.dot p.velocidad)).sum
          / (2 * ([pTermica] : List Particula).length * k_B_default)) :=
  ⟨by simp, (C6_temperatura_formula [pTermica] k_B_default).2 (by simp)⟩

theorem buscar_posicion_none (previas : List Particula) (radio : ℝ)
    (muestras : ℕ → Vec2) :
    ∀ fuel k : ℕ,
      (∀ j, j < fuel → ¬ posicion_valida previas radio (muestras (k + j))) →
      buscar_posicion previas radio muestras k fuel = none := by
  intro fuel
  induction fuel with
  | zero => intro k _; rfl
  | succ n ih =>
    intro k h
    rw [buscar_posicion, if_neg (by simpa using h 0 (Nat.succ_pos n))]
    refine ih (k + 1) fun j hj => ?_
    have hsh := h (j + 1) (Nat.succ_lt_succ hj)
    have e : k + (j + 1) = k + 1 + j := by omega
    rwa [e] at hsh

theorem buscar_posicion_some (previas : List Particula) (radio : ℝ)
    (muestras : ℕ → Vec2) :
    ∀ fuel k : ℕ,
      (∀ j, j < fuel → ¬ posicion_valida previas radio (muestras (k + j))) →
      posicion_valida previas radio (muestras (k + fuel)) →
      buscar_posicion previas radio muestras k (fuel + 1)
        = some (muestras (k + fuel)) := by
  intro fuel
  induction fuel with
  | zero =>
    intro k _ hv
    rw [buscar_posicion, if_pos (by simpa using hv)]
    simp
  | succ n ih =>
    intro k h hv
    rw [buscar_posicion, if_neg (by simpa using h 0 (Nat.succ_pos n))]
    have hv' : posicion_valida previas radio (muestras (k + 1 + n)) := by
      have e : k + 1 + n = k + (n + 1) := by omega
      rwa [e]
    have hsh : ∀ j, j < n → ¬ posicion_valida previas radio (muestras (k + 1 + j)) := by
      intro j hj
      have := h (j + 1) (Nat.succ_lt_succ hj)
      have e : k + (j + 1) = k + 1 + j := by omega
      rwa [e] at this
    have := ih (k + 1) hsh hv'
    rw [this]
    have e : k + 1 + n = k + (n + 1) := by omega
    rw [e]

/-- C5 counterexample: there is no bound B after which the placement loop
has always resolved: the constant stream of samples at the origin, which
collides with the already placed particle pOrigen, keeps the loop running
past every bound, and the loop has no failure exit at all. -/
theorem C5_counterexample :
    ¬ ∃ B : ℕ, ∀ muestras : ℕ → Vec2,
        buscar_posicion [pOrigen] 1 muestras 0 B ≠ none := by
  rintro ⟨B, hB⟩
  apply hB fun _ => ⟨0, 0⟩
  apply buscar_posicion_none
  intro j _ hvalid
  have hsub : (⟨0, 0⟩ : Vec2) - pOrigen.posicion = ⟨0, 0⟩ := by
    apply Vec2.eq_of_xy <;> simp [pOrigen, Particula.init]
  have hlt : norma ((⟨0, 0⟩ : Vec2) - pOrigen.posicion) < 2 * 1 := by
    rw [hsub, norma_cero]
    norm_num
  exact hvalid pOrigen (by simp) hlt

/-- C5 as amended: the placement loop of crear_gas retries without any
bound and surfaces no failure condition: for every candidate bound B there
is a sample stream on which the loop is still unresolved after B attempts
and then succeeds at attempt B + 1 with a valid position. -/
theorem C5_sin_cota (B : ℕ) :
    ∃ muestras : ℕ → Vec2, ∃ v : Vec2,
      buscar_posicion [pOrigen] 1 muestras 0 B = none ∧
      buscar_posicion [pOrigen] 1 muestras 0 (B + 1) = some v ∧
      posicion_valida [pOrigen] 1 v := by
  have hsub0 : (⟨0, 0⟩ : Vec2) - pOrigen.posicion = ⟨0, 0⟩ := by
    apply Vec2.eq_of_xy <;> simp [pOrigen, Particula.init]
  have hsub5 : (⟨5, 0⟩ : Vec2) - pOrigen.posicion = ⟨5, 0⟩ := by
    apply Vec2.eq_of_xy <;> simp [pOrigen, Particula.init]
  have h5 : norma ⟨5, 0⟩ = 5 := by
    rw [norma]
    rw [show ((5 : ℝ) * 5 + 0 * 0) = 5 ^ 2 by norm_num]
    exact Real.sqrt_sq (by norm_num)
  have hinvalid : ¬ posicion_valida [pOrigen] 1 ⟨0, 0⟩ := by
    intro hvalid
    have hlt : norma ((⟨0, 0⟩ : Vec2) - pOrigen.posicion) < 2 * 1 := by
      rw [hsub0, norma_cero]
      norm_num
    exact hvalid pOrigen (by simp) hlt
  have hvalid5 : posicion_valida [pOrigen] 1 ⟨5, 0⟩ := by
    intro p hp
    rw [List.mem_singleton] at hp
    subst hp
    rw [hsub5, h5]
    norm_num
  refine ⟨fun k => if k < B then ⟨0, 0⟩ else ⟨5, 0⟩, ⟨5, 0⟩, ?_, ?_, hvalid5⟩
  · apply buscar_posicion_none
    intro j hj
    simp only [Nat.zero_add, if_pos hj]
    exact hinvalid
  · have hnone : ∀ j, j < B →
        ¬ posicion_valida [pOrigen] 1
          ((fun k => if k < B then (⟨0, 0⟩ : Vec2) else ⟨5, 0⟩) (0 + j)) := by
      intro j hj
      simp only [Nat.zero_add, if_pos hj]
      exact hinvalid
    have hfin : posicion_valida [pOrigen] 1
        ((fun k => if k < B then (⟨0, 0⟩ : Vec2) else ⟨5, 0⟩) (0 + B)) := by
      simp only [Nat.zero_add, lt_irrefl, if_neg (lt_irrefl B)]
      exact hvalid5
    have := buscar_posicion_some [pOrigen] 1
      (fun k => if k < B then ⟨0, 0⟩ else ⟨5, 0⟩) B 0 hnone hfin
    rw [this]
    simp

/-- C2 counterexample: after one Simulacion.avanzar step, the fast particle
that started at x = 5 with speed 100 sits at x = 105, far outside
[radio, tamano_caja - radio] = [1, 9]: avanzar clamps before moving and
never after, so the claimed containment fails for avanzar. -/
theorem C2_counterexample :
    ((sRapida.avanzar 1).particulas.map fun q => q.posicion.x) = [105] ∧
    ¬ ((105 : ℝ) ≤ 10 - 1) := by
  refine ⟨?_, by norm_num⟩
  have hq := colisionar_pared_interior pRapida 10 10
    (by norm_num [pRapida, Particula.init])
    (by norm_num [pRapida, Particula.init])
    (by norm_num [pRapida, Particula.init])
    (by norm_num [pRapida, Particula.init])
  have hpart : (sRapida.avanzar 1).particulas
      = [(pRapida.colisionar_pared 10 10).mover 1] := by
    show (sRapida.avanzarUno).particulas = _
    rw [show (sRapida.avanzarUno).particulas
        = (detectar_colisiones [pRapida.colisionar_pared 10 10]).map
            (fun p : Particula => p.mover 1) from rfl,
      detectar_colisiones_singleton]
    rfl
  rw [hpart]
  simp only [List.map_cons, List.map_nil, mover_posicion, Vec2.add_x,
    Vec2.smul_x, hq.1, hq.2, List.cons.injEq, and_true]
  norm_num [pRapida, Particula.init]

/-- C2 as amended: the free function paso does restore the containment
invariant for every particle, whenever the box is at least twice each
radius wide and tall; the clamp of colisionar_pared runs after the move
there, so it is a postcondition of the whole step. -/
theorem C2_paso_contencion (particulas : List Particula) (dt ancho alto : ℝ)
    (h : ∀ p ∈ particulas, 2 * p.radio ≤ ancho ∧ 2 * p.radio ≤ alto) :
    ∀ q ∈ paso particulas dt ancho alto,
      q.radio ≤ q.posicion.x ∧ q.posicion.x ≤ ancho - q.radio ∧
      q.radio ≤ q.posicion.y ∧ q.posicion.y ≤ alto - q.radio := by
  intro q hq
  rw [paso, List.mem_map] at hq
  obtain ⟨p, hp, rfl⟩ := hq
  obtain ⟨h1, h2⟩ := h p hp
  obtain ⟨-, hr⟩ := colisionar_pared_masa_radio (p.mover dt) ancho alto
  have hb := colisionar_pared_bounds (p.mover dt) ancho alto
    (by rw [mover_radio]; exact h1) (by rw [mover_radio]; exact h2)
  rw [mover_radio] at hb
  rw [hr, mover_radio]
  exact hb

/-- C2 witness: with the fast particle in the 10 x 10 box, one paso step
lands it inside the containment band. -/
theorem C2_paso_contencion_witness :
    (∀ p ∈ [pRapida], 2 * p.radio ≤ (10 : ℝ) ∧ 2 * p.radio ≤ (10 : ℝ)) ∧
    (∀ q ∈ paso [pRapida] 1 10 10,
      q.radio ≤ q.posicion.x ∧ q.posicion.x ≤ 10 - q.radio ∧
      q.radio ≤ q.posicion.y ∧ q.posicion.y ≤ 10 - q.radio) := by
  have hh : ∀ p ∈ [pRapida], 2 * p.radio ≤ (10 : ℝ) ∧ 2 * p.radio ≤ (10 : ℝ) := by
    intro p hp
    rw [List.mem_singleton] at hp
    subst hp
    norm_num [pRapida, Particula.init]
  exact ⟨hh, C2_paso_contencion [pRapida] 1 10 10 hh⟩

theorem norma_smul (c : ℝ) (v : Vec2) : norma (c • v) = |c| * norma v := by
  rw [norma, norma, Vec2.smul_x, Vec2.smul_y,
    show c * v.x * (c * v.x) + c * v.y * (c * v.y)
      = (c * c) * (v.x * v.x + v.y * v.y) by ring,
    Real.sqrt_mul (mul_self_nonneg c), Real.sqrt_mul_self_eq_abs]

theorem dot_add_smul (v n : Vec2) (c : ℝ) :
    (v + c • n).dot (v + c • n)
      = v.dot v + 2 * c * (v.dot n) + c * c * (n.dot n) := by
  simp only [Vec2.dot, Vec2.add_x, Vec2.add_y, Vec2.smul_x, Vec2.smul_y]
  ring

theorem nvec_dot_self (p1 p2 : Particula)
    (hd : norma (p2.posicion - p1.posicion) ≠ 0) :
    (nvec p1 p2).dot (nvec p1 p2) = 1 := by
  have h2 := norma_mul_self (p2.posicion - p1.posicion)
  simp only [Vec2.sub_x, Vec2.sub_y] at h2
  unfold nvec
  simp only [Vec2.dot, Vec2.div_x, Vec2.div_y, Vec2.sub_x, Vec2.sub_y]
  field_simp
  linarith [h2]

theorem resolver_colision_masa (p1 p2 : Particula) :
    (resolver_colision p1 p2).1.masa = p1.masa ∧
    (resolver_colision p1 p2).2.masa = p2.masa := by
  simp only [resolver_colision]
  split_ifs <;> exact ⟨rfl, rfl⟩

theorem resolver_colision_velocidad (p1 p2 : Particula)
    (hd : norma (p2.posicion - p1.posicion) ≠ 0) :
    (resolver_colision p1 p2).1.velocidad
        = p1.velocidad + dv1 p1 p2 • nvec p1 p2 ∧
    (resolver_colision p1 p2).2.velocidad
        = p2.velocidad + dv2 p1 p2 • nvec p1 p2 := by
  simp only [resolver_colision]
  rw [if_neg hd]
  split_ifs <;> exact ⟨rfl, rfl⟩

theorem resolver_colision_posicion (p1 p2 : Particula)
    (hd : norma (p2.posicion - p1.posicion) ≠ 0)
    (hover : 0 < (p1.radio + p2.radio) - norma (p2.posicion - p1.posicion)) :
    (resolver_colision p1 p2).1.posicion
        = p1.posicion -
          (((p1.radio + p2.radio) - norma (p2.posicion - p1.posicion)) * 0.5)
            • nvec p1 p2 ∧
    (resolver_colision p1 p2).2.posicion
        = p2.posicion +
          (((p1.radio + p2.radio) - norma (p2.posicion - p1.posicion)) * 0.5)
            • nvec p1 p2 := by
  simp only [resolver_colision]
  rw [if_neg hd, if_pos hover]
  exact ⟨rfl, rfl⟩

/-- C7: when the two centers coincide exactly, _resolver_colision is a
total no-op, returning both particles untouched instead of dividing by
zero. -/
theorem C7_coincidencia (p1 p2 : Particula) (h : p1.posicion = p2.posicion) :
    resolver_colision p1 p2 = (p1, p2) := by
  have hz : p2.posicion - p1.posicion = ⟨0, 0⟩ := by
    apply Vec2.eq_of_xy <;> simp [h]
  simp only [resolver_colision]
  rw [hz, norma_cero, if_pos rfl]

/-- C7 witness: the coincident pair at the origin is returned unchanged. -/
theorem C7_coincidencia_witness :
    pChoque1.posicion = pOrigen.posicion ∧
    resolver_colision pChoque1 pOrigen = (pChoque1, pOrigen) := by
  have h : pChoque1.posicion = pOrigen.posicion := by
    apply Vec2.eq_of_xy <;> simp [pChoque1, pOrigen, Particula.init]
  exact ⟨h, C7_coincidencia pChoque1 pOrigen h⟩

/-- C3: for positive masses and distinct centers, _resolver_colision
conserves the total momentum and the total kinetic energy of the pair
exactly, and each velocity change is parallel to the center line, leaving
the tangential components unchanged. -/
theorem C3_conservacion (p1 p2 : Particula) (hm1 : 0 < p1.masa)
    (hm2 : 0 < p2.masa) (hd : norma (p2.posicion - p1.posicion) ≠ 0) :
    ((resolver_colision p1 p2).1.momento_lineal
        + (resolver_colision p1 p2).2.momento_lineal
      = p1.momento_lineal + p2.momento_lineal) ∧
    ((resolver_colision p1 p2).1.energia_cinetica
        + (resolver_colision p1 p2).2.energia_cinetica
      = p1.energia_cinetica + p2.energia_cinetica) ∧
    (∃ c1 c2 : ℝ,
      (resolver_colision p1 p2).1.velocidad
          = p1.velocidad + c1 • (p2.posicion - p1.posicion) ∧
      (resolver_colision p1 p2).2.velocidad
          = p2.velocidad + c2 • (p2.posicion - p1.posicion)) ∧
    (((resolver_colision p1 p2).1.velocidad - p1.velocidad).dot
        ⟨-(p2.posicion - p1.posicion).y, (p2.posicion - p1.posicion).x⟩ = 0 ∧
     ((resolver_colision p1 p2).2.velocidad - p2.velocidad).dot
        ⟨-(p2.posicion - p1.posicion).y, (p2.posicion - p1.posicion).x⟩ = 0) := by
  have hM : p1.masa + p2.masa ≠ 0 := by positivity
  obtain ⟨hv1, hv2⟩ := resolver_colision_velocidad p1 p2 hd
  obtain ⟨hma, hmb⟩ := resolver_colision_masa p1 p2
  have hkey : p1.masa * dv1 p1 p2 + p2.masa * dv2 p1 p2 = 0 := by
    unfold dv1 dv2 v1n_nueva v2n_nueva
    field_simp
    ring
  refine ⟨?_, ?_, ?_, ?_⟩
  · unfold Particula.momento_lineal
    rw [hma, hmb, hv1, hv2]
    apply Vec2.eq_of_xy
    · simp only [Vec2.add_x, Vec2.smul_x]
      linear_combination (nvec p1 p2).x * hkey
    · simp only [Vec2.add_y, Vec2.smul_y]
      linear_combination (nvec p1 p2).y * hkey
  · have hn := nvec_dot_self p1 p2 hd
    have hkey2 : p1.masa * (2 * dv1 p1 p2 * (p1.velocidad.dot (nvec p1 p2))
          + dv1 p1 p2 * dv1 p1 p2)
        + p2.masa * (2 * dv2 p1 p2 * (p2.velocidad.dot (nvec p1 p2))
          + dv2 p1 p2 * dv2 p1 p2) = 0 := by
      unfold dv1 dv2 v1n_nueva v2n_nueva v1n v2n
      field_simp
      ring
    unfold Particula.energia_cinetica
    rw [hma, hmb, hv1, hv2, dot_add_smul, dot_add_smul, hn]
    linear_combination (0.5 : ℝ) * hkey2
  · refine ⟨dv1 p1 p2 / norma (p2.posicion - p1.posicion),
      dv2 p1 p2 / norma (p2.posicion - p1.posicion), ?_, ?_⟩
    · rw [hv1]
      apply Vec2.eq_of_xy <;>
        simp only [Vec2.add_x, Vec2.add_y, Vec2.smul_x, Vec2.smul_y, nvec,
          Vec2.div_x, Vec2.div_y] <;> ring
    · rw [hv2]
      apply Vec2.eq_of_xy <;>
        simp only [Vec2.add_x, Vec2.add_y, Vec2.smul_x, Vec2.smul_y, nvec,
          Vec2.div_x, Vec2.div_y] <;> ring
  · constructor
    · rw [hv1]
      simp only [Vec2.dot, Vec2.sub_x, Vec2.sub_y, Vec2.add_x, Vec2.add_y,
        Vec2.smul_x, Vec2.smul_y, nvec, Vec2.div_x, Vec2.div_y]
      ring
    · rw [hv2]
      simp only [Vec2.dot, Vec2.sub_x, Vec2.sub_y, Vec2.add_x, Vec2.add_y,
        Vec2.smul_x, Vec2.smul_y, nvec, Vec2.div_x, Vec2.div_y]
      ring

/-- C3 witness: the unit-mass head-on pair at distance 1 instantiates the
conservation statement. -/
theorem C3_conservacion_witness :
    (0 < pChoque1.masa) ∧ (0 < pChoque2.masa) ∧
    (norma (pChoque2.posicion - pChoque1.posicion) ≠ 0) ∧
    (((resolver_colision pChoque1 pChoque2).1.momento_lineal
        + (resolver_colision pChoque1 pChoque2).2.momento_lineal
      = pChoque1.momento_lineal + pChoque2.momento_lineal) ∧
     ((resolver_colision pChoque1 pChoque2).1.energia_cinetica
        + (resolver_colision pChoque1 pChoque2).2.energia_cinetica
      = pChoque1.energia_cinetica + pChoque2.energia_cinetica) ∧
     (∃ c1 c2 : ℝ,
       (resolver_colision pChoque1 pChoque2).1.velocidad
           = pChoque1.velocidad + c1 • (pChoque2.posicion - pChoque1.posicion) ∧
       (resolver_colision pChoque1 pChoque2).2.velocidad
           = pChoque2.velocidad + c2 • (pChoque2.posicion - pChoque1.posicion)) ∧
     (((resolver_colision pChoque1 pChoque2).1.velocidad
          - pChoque1.velocidad).dot
        ⟨-(pChoque2.posicion - pChoque1.posicion).y,
          (pChoque2.posicion - pChoque1.posicion).x⟩ = 0 ∧
      ((resolver_colision pChoque1 pChoque2).2.velocidad
          - pChoque2.velocidad).dot
        ⟨-(pChoque2.posicion - pChoque1.posicion).y,
          (pChoque2.posicion - pChoque1.posicion).x⟩ = 0)) := by
  have hm1 : (0 : ℝ) < pChoque1.masa := by norm_num [pChoque1, Particula.init]
  have hm2 : (0 : ℝ) < pChoque2.masa := by norm_num [pChoque2, Particula.init]
  have hsub : pChoque2.posicion - pChoque1.posicion = ⟨1, 0⟩ := by
    apply Vec2.eq_of_xy <;> simp [pChoque1, pChoque2, Particula.init]
  have h1 : norma ⟨1, 0⟩ = 1 := by
    rw [norma, show ((1 : ℝ) * 1 + 0 * 0) = 1 by norm_num, Real.sqrt_one]
  have hd : norma (pChoque2.posicion - pChoque1.posicion) ≠ 0 := by
    rw [hsub, h1]
    norm_num
  exact ⟨hm1, hm2, hd, C3_conservacion pChoque1 pChoque2 hm1 hm2 hd⟩

/-- C8: when the disks overlap at positive distance, the positional
correction of _resolver_colision separates the centers to at least the sum
of the radii (in fact exactly that sum, in exact arithmetic). -/
theorem C8_separacion (p1 p2 : Particula)
    (h0 : 0 < norma (p2.posicion - p1.posicion))
    (hlt : norma (p2.posicion - p1.posicion) < p1.radio + p2.radio) :
    p1.radio + p2.radio
      ≤ norma ((resolver_colision p1 p2).2.posicion
          - (resolver_colision p1 p2).1.posicion) := by
  have hd : norma (p2.posicion - p1.posicion) ≠ 0 := ne_of_gt h0
  obtain ⟨hp1, hp2⟩ := resolver_colision_posicion p1 p2 hd (by linarith)
  have hdiff : (resolver_colision p1 p2).2.posicion
      - (resolver_colision p1 p2).1.posicion
      = ((p1.radio + p2.radio) / norma (p2.posicion - p1.posicion))
          • (p2.posicion - p1.posicion) := by
    rw [hp1, hp2]
    apply Vec2.eq_of_xy <;>
      simp only [Vec2.sub_x, Vec2.sub_y, Vec2.add_x, Vec2.add_y, Vec2.smul_x,
        Vec2.smul_y, nvec, Vec2.div_x, Vec2.div_y] <;>
      field_simp [hd] <;> ring
  have hRpos : (0 : ℝ) < p1.radio + p2.radio := lt_trans h0 hlt
  rw [hdiff, norma_smul, abs_of_pos (div_pos hRpos h0), div_mul_cancel₀ _ hd]

/-- C8 witness: the overlapping unit pair at distance 1 is pushed to
distance at least the radius sum 2. -/
theorem C8_separacion_witness :
    (0 < norma (pChoque2.posicion - pChoque1.posicion)) ∧
    (norma (pChoque2.posicion - pChoque1.posicion)
      < pChoque1.radio + pChoque2.radio) ∧
    (pChoque1.radio + pChoque2.radio
      ≤ norma ((resolver_colision pChoque1 pChoque2).2.posicion
          - (resolver_colision pChoque1 pChoque2).1.posicion)) := by
  have hsub : pChoque2.posicion - pChoque1.posicion = ⟨1, 0⟩ := by
    apply Vec2.eq_of_xy <;> simp [pChoque1, pChoque2, Particula.init]
  have h1 : norma ⟨1, 0⟩ = 1 := by
    rw [norma, show ((1 : ℝ) * 1 + 0 * 0) = 1 by norm_num, Real.sqrt_one]
  have h0 : 0 < norma (pChoque2.posicion - pChoque1.posicion) := by
    rw [hsub, h1]
    norm_num
  have hlt : norma (pChoque2.posicion - pChoque1.posicion)
      < pChoque1.radio + pChoque2.radio := by
    rw [hsub, h1]
    norm_num [pChoque1, pChoque2, Particula.init]
  exact ⟨h0, hlt, C8_separacion pChoque1 pChoque2 h0 hlt⟩

end
